import Mathlib

/-!
# Verification of the Fenster Bridge (`src/native/fenster_bridge.c`)

Shallow embedding of the fenster bridge: a thin C wrapper that owns a pixel
buffer and a title copy on behalf of an embedded `struct fenster` window-state
record, forwards open/loop calls to the external fenster library, and detects
physical-size changes to reallocate the buffer.

Modelling conventions:
* Pointers are modelled as `Nat` addresses (0 plays the role of `NULL`).
* The contents of the one heap block the bridge owns (the pixel buffer) are
  carried alongside its address as a byte list `bufData`; `calloc(n, 4)`
  produces `n * 4` zero bytes.
* C `int` values are `Int`; `size_t` casts reduce modulo `2 ^ 64` as in C, and
  the `(size_t)w * (size_t)h` product in a `calloc` argument wraps modulo
  `2 ^ 64`.
* C `float` is idealised as `ℚ` with exact arithmetic; the `(int)` cast on a
  nonnegative-denominator rational truncates toward zero, as the C cast does.
* The external library calls `fenster_open` / `fenster_loop` receive
  `&fb->f` and may rewrite the window state arbitrarily — new dimensions,
  physical dimensions, scale, key table, modifiers and a status code, all
  supplied by a `FensterEvent` environment value — but the library never
  reassigns the caller-provided `buf` and `title` pointers, which is the
  contract the bridge relies on.
* `free` calls are recorded as a list of freed addresses returned next to the
  new state, so that "the old buffer is released" is a statable event.
* The platform-conditional XImage block in `fenster_bridge_loop`
  (`#if !defined(__APPLE__) && !defined(_WIN32)`) manipulates only the
  backend surface object; we model the build in which it is compiled out, as
  no claim concerns the surface fields.
-/

/-- C `(size_t)i` conversion of an `int` value: reduce modulo `2 ^ 64`. -/
def size_t (i : Int) : Nat := (i % (2 : Int) ^ 64).toNat

/-- The element count `(size_t)w * (size_t)h` handed to `calloc`:
`size_t` multiplication wraps modulo `2 ^ 64`. -/
def callocCount (w h : Int) : Nat := (size_t w * size_t h) % 2 ^ 64

/-- The zero-filled byte contents `calloc((size_t)w * (size_t)h,
sizeof(uint32_t))` returns on success: `count * 4` zero bytes. -/
def zeroPixels (w h : Int) : List Nat := List.replicate (callocCount w h * 4) 0

/-- C `(int)` cast of a float value (idealised as `ℚ`): truncation toward
zero. -/
def truncToInt (q : ℚ) : Int := q.num.tdiv (q.den : Int)

/-- `struct fenster` (the portable fields used by the bridge): title pointer,
logical width/height, buffer pointer, key-state table, modifier bitmask,
physical width/height and scale factor.  The platform-specific backend fields
(display connection, XImage, …) are omitted; no bridge claim concerns them. -/
structure fenster where
  title : Nat
  width : Int
  height : Int
  buf : Nat
  keys : List Int
  mod : Int
  phys_width : Int
  phys_height : Int
  scale : ℚ
deriving DecidableEq

/-- `fenster_bridge`: the embedded window state `f`, the owned buffer pointer
`buf` together with the byte contents `bufData` of the block it points to,
the owned title copy pointer, the resize flag, and the cached previous
physical width/height/scale. -/
structure fenster_bridge where
  f : fenster
  buf : Nat
  bufData : List Nat
  title_copy : Nat
  resized : Int
  prev_width : Int
  prev_height : Int
  prev_scale : ℚ
deriving DecidableEq

/-- One observable outcome of a delegated `fenster_open` / `fenster_loop`
call: the status code it returns and the window-state fields it may have
rewritten.  The library never reassigns the caller-provided `buf` and
`title` pointers. -/
structure FensterEvent where
  result : Int
  width : Int
  height : Int
  phys_width : Int
  phys_height : Int
  scale : ℚ
  keys : List Int
  mod : Int
deriving DecidableEq

/-- Effect of a delegated library call on `fb->f`: every field may change
except the caller-provided `buf` and `title` pointers. -/
def applyEvent (ev : FensterEvent) (f0 : fenster) : fenster :=
  { f0 with
    width := ev.width, height := ev.height,
    phys_width := ev.phys_width, phys_height := ev.phys_height,
    scale := ev.scale, keys := ev.keys, mod := ev.mod }

/-- The bridge state `fenster_bridge_create(title, w, h)` builds when both
allocations succeed: `fb` is calloc-zeroed, so the `struct fenster` fields not
named in the initializer (`keys`, `mod`, `phys_width`, `phys_height`,
`scale`) are zero; the caches are seeded to the requested size and scale
`1.0f`, and `resized` is cleared. -/
def createState (titleAddr : Nat) (w h : Int) (bufAddr : Nat) : fenster_bridge :=
  { f := { title := titleAddr, width := w, height := h, buf := bufAddr,
           keys := List.replicate 256 0, mod := 0,
           phys_width := 0, phys_height := 0, scale := 0 },
    buf := bufAddr,
    bufData := zeroPixels w h,
    title_copy := titleAddr,
    resized := 0,
    prev_width := w,
    prev_height := h,
    prev_scale := 1 }

/-- `fenster_bridge_create(title, w, h)`.  `fbAlloc` and `bufAlloc` are the
outcomes of the two `calloc` calls (`none` = failure, `some a` = fresh block
at address `a`); `titleAddr` is the `strdup` result (0 when `strdup` failed,
which the code tolerates).  Returns the handle (or `NULL`) and the list of
addresses freed on the way out. -/
def fenster_bridge_create (titleAddr : Nat) (w h : Int)
    (fbAlloc : Option Nat) (bufAlloc : Option Nat) :
    Option fenster_bridge × List Nat :=
  match fbAlloc with
  | none => (none, [])
  | some fbAddr =>
    match bufAlloc with
    | none => (none, [fbAddr])
    | some bufAddr => (some (createState titleAddr w h bufAddr), [])

/-- `fenster_bridge_open(fb)`.  Delegates to `fenster_open(&fb->f)`
(outcome `ev`), returning its status unchanged on failure.  On success, if
the reported physical dimensions differ from the cached previous dimensions,
reallocates the buffer at physical size (`alloc` is the `calloc` outcome);
on allocation success frees the old buffer, rewires both buffer pointers and
updates the cached dimensions.  `fb->prev_scale = fb->f.scale` runs on every
success path.  Returns the new state, the status, and the freed addresses. -/
def fenster_bridge_open (ev : FensterEvent) (alloc : Option Nat)
    (fb : fenster_bridge) : fenster_bridge × Int × List Nat :=
  let f1 := applyEvent ev fb.f
  let fb1 : fenster_bridge := { fb with f := f1 }
  if ev.result ≠ 0 then (fb1, ev.result, [])
  else if f1.phys_width ≠ fb1.prev_width ∨ f1.phys_height ≠ fb1.prev_height then
    match alloc with
    | some newAddr =>
      ({ fb1 with
          buf := newAddr,
          bufData := zeroPixels f1.phys_width f1.phys_height,
          f := { f1 with buf := newAddr },
          prev_width := f1.phys_width,
          prev_height := f1.phys_height,
          prev_scale := f1.scale }, 0, [fb1.buf])
    | none => ({ fb1 with prev_scale := f1.scale }, 0, [])
  else ({ fb1 with prev_scale := f1.scale }, 0, [])

/-- `fenster_bridge_loop(fb)`.  Delegates to `fenster_loop(&fb->f)`
(outcome `ev`), then — regardless of the status — compares the physical
dimensions with the cached previous dimensions.  On a detected change it
reallocates (`alloc` is the `calloc` outcome); only when the allocation
succeeds does it free the old buffer, rewire both pointers, set the resize
flag and update the cached dimensions and scale.  Returns the new state, the
delegated status, and the freed addresses. -/
def fenster_bridge_loop (ev : FensterEvent) (alloc : Option Nat)
    (fb : fenster_bridge) : fenster_bridge × Int × List Nat :=
  let f1 := applyEvent ev fb.f
  let fb1 : fenster_bridge := { fb with f := f1 }
  if f1.phys_width ≠ fb1.prev_width ∨ f1.phys_height ≠ fb1.prev_height then
    match alloc with
    | some newAddr =>
      ({ fb1 with
          buf := newAddr,
          bufData := zeroPixels f1.phys_width f1.phys_height,
          f := { f1 with buf := newAddr },
          resized := 1,
          prev_width := f1.phys_width,
          prev_height := f1.phys_height,
          prev_scale := f1.scale }, ev.result, [fb1.buf])
    | none => (fb1, ev.result, [])
  else (fb1, ev.result, [])

/-- `fenster_bridge_close(fb)` on a non-null handle at address `fbAddr`:
after `fenster_close(&fb->f)` it frees the pixel buffer, the title copy and
the handle record, in that order. -/
def fenster_bridge_close (fb : fenster_bridge) (fbAddr : Nat) : List Nat :=
  [fb.buf, fb.title_copy, fbAddr]

/-- `fenster_bridge_get_buf(fb)`: returns the owned buffer pointer. -/
def fenster_bridge_get_buf (fb : fenster_bridge) : Nat := fb.buf

/-- `fenster_bridge_copy_buf(fb, src, byte_length)`:
`memcpy(fb->buf, src, (size_t)byte_length)` — overwrite the first
`(size_t)byte_length` bytes of the buffer block with the source bytes. -/
def fenster_bridge_copy_buf (fb : fenster_bridge) (src : List Nat)
    (byte_length : Int) : fenster_bridge :=
  { fb with
    bufData := src.take (size_t byte_length) ++ fb.bufData.drop (size_t byte_length) }

/-- `fenster_bridge_get_keys(fb)`: the window library's key-state table. -/
def fenster_bridge_get_keys (fb : fenster_bridge) : List Int := fb.f.keys

/-- `fenster_bridge_get_mod(fb)`: the modifier bitmask. -/
def fenster_bridge_get_mod (fb : fenster_bridge) : Int := fb.f.mod

/-- `fenster_bridge_get_size(fb, w, h)`: the logical width/height. -/
def fenster_bridge_get_size (fb : fenster_bridge) : Int × Int :=
  (fb.f.width, fb.f.height)

/-- `fenster_bridge_get_resized(fb, w, h)`: returns the resize flag, writes
the current physical width/height to the out-parameters, and clears the
flag.  Result: `(was_resized, *w, *h, new state)`. -/
def fenster_bridge_get_resized (fb : fenster_bridge) :
    Int × Int × Int × fenster_bridge :=
  (fb.resized, fb.f.phys_width, fb.f.phys_height, { fb with resized := 0 })

/-- `fenster_bridge_get_scale(fb)`: the window state's scale factor. -/
def fenster_bridge_get_scale (fb : fenster_bridge) : ℚ := fb.f.scale

/-- `fenster_bridge_set_scale(fb, scale)`: store the scale and recompute the
physical dimensions as `(int)(fb->f.width * scale)` /
`(int)(fb->f.height * scale)`. -/
def fenster_bridge_set_scale (fb : fenster_bridge) (scale : ℚ) : fenster_bridge :=
  { fb with
    f := { fb.f with
            scale := scale,
            phys_width := truncToInt (fb.f.width * scale),
            phys_height := truncToInt (fb.f.height * scale) } }

/-- Well-formed outcome of a delegated library call: the library reports
physical dimensions that are nonnegative C `int` pixel counts. -/
def EnvOk (ev : FensterEvent) : Prop :=
  0 ≤ ev.phys_width ∧ ev.phys_width < 2 ^ 31 ∧
  0 ≤ ev.phys_height ∧ ev.phys_height < 2 ^ 31

/-- Reachable bridge states: built by a successful `fenster_bridge_create`
with in-range requested dimensions, and closed under `fenster_bridge_open`,
`fenster_bridge_loop` (with well-formed library outcomes),
`fenster_bridge_set_scale`, `fenster_bridge_get_resized`, and
`fenster_bridge_copy_buf` (under the no-bounds-check contract that the
caller supplies `0 ≤ byte_length ≤ buffer size` with a source region of at
least `byte_length` bytes). -/
inductive Reachable : fenster_bridge → Prop
  | create (titleAddr : Nat) (w h : Int) (bufAddr : Nat)
      (hw0 : 0 ≤ w) (hw1 : w < 2 ^ 31) (hh0 : 0 ≤ h) (hh1 : h < 2 ^ 31) :
      Reachable (createState titleAddr w h bufAddr)
  | open_step (fb : fenster_bridge) (ev : FensterEvent) (alloc : Option Nat)
      (hfb : Reachable fb) (hev : EnvOk ev) :
      Reachable (fenster_bridge_open ev alloc fb).1
  | loop_step (fb : fenster_bridge) (ev : FensterEvent) (alloc : Option Nat)
      (hfb : Reachable fb) (hev : EnvOk ev) :
      Reachable (fenster_bridge_loop ev alloc fb).1
  | set_scale_step (fb : fenster_bridge) (s : ℚ) (hfb : Reachable fb) :
      Reachable (fenster_bridge_set_scale fb s)
  | get_resized_step (fb : fenster_bridge) (hfb : Reachable fb) :
      Reachable (fenster_bridge_get_resized fb).2.2.2
  | copy_buf_step (fb : fenster_bridge) (src : List Nat) (n : Int)
      (hfb : Reachable fb) (hn0 : 0 ≤ n) (hn1 : n < 2 ^ 31)
      (hsrc : n.toNat ≤ src.length) (hcap : n.toNat ≤ fb.bufData.length) :
      Reachable (fenster_bridge_copy_buf fb src n)

/-- A concrete bridge state: a successful create of a 4×3 window at buffer
address 5 with title copy at address 9. -/
def fbC : fenster_bridge := createState 9 4 3 5

/-- A concrete failing library outcome (status 5). -/
def evFail : FensterEvent :=
  { result := 5, width := 4, height := 3, phys_width := 4, phys_height := 3,
    scale := 1, keys := List.replicate 256 0, mod := 0 }

/-- A concrete successful library outcome reporting doubled physical
dimensions (scale 2). -/
def evScaled : FensterEvent :=
  { result := 0, width := 4, height := 3, phys_width := 8, phys_height := 6,
    scale := 2, keys := List.replicate 256 0, mod := 0 }

/-- A concrete successful library outcome whose physical dimensions match
the cache of `fbC`. -/
def evSame : FensterEvent :=
  { result := 0, width := 4, height := 3, phys_width := 4, phys_height := 3,
    scale := 1, keys := List.replicate 256 0, mod := 0 }

/-! ## Characterization lemmas for the branch structure of open and loop -/

theorem fenster_bridge_open_fail {ev : FensterEvent} (alloc : Option Nat)
    (fb : fenster_bridge) (h : ev.result ≠ 0) :
    fenster_bridge_open ev alloc fb =
      ({ fb with f := applyEvent ev fb.f }, ev.result, []) := by
  simp [fenster_bridge_open, h]

theorem fenster_bridge_open_nochange {ev : FensterEvent} (alloc : Option Nat)
    (fb : fenster_bridge) (h : ev.result = 0)
    (hw : ev.phys_width = fb.prev_width) (hh : ev.phys_height = fb.prev_height) :
    fenster_bridge_open ev alloc fb =
      ({ fb with f := applyEvent ev fb.f, prev_scale := ev.scale }, 0, []) := by
  simp [fenster_bridge_open, applyEvent, h, hw, hh]

theorem fenster_bridge_open_realloc {ev : FensterEvent} (a : Nat)
    (fb : fenster_bridge) (h : ev.result = 0)
    (hc : ev.phys_width ≠ fb.prev_width ∨ ev.phys_height ≠ fb.prev_height) :
    fenster_bridge_open ev (some a) fb =
      ({ fb with
          f := { applyEvent ev fb.f with buf := a },
          buf := a,
          bufData := zeroPixels ev.phys_width ev.phys_height,
          prev_width := ev.phys_width,
          prev_height := ev.phys_height,
          prev_scale := ev.scale }, 0, [fb.buf]) := by
  simp [fenster_bridge_open, applyEvent, h, hc]

theorem fenster_bridge_open_allocfail {ev : FensterEvent}
    (fb : fenster_bridge) (h : ev.result = 0)
    (hc : ev.phys_width ≠ fb.prev_width ∨ ev.phys_height ≠ fb.prev_height) :
    fenster_bridge_open ev none fb =
      ({ fb with f := applyEvent ev fb.f, prev_scale := ev.scale }, 0, []) := by
  simp [fenster_bridge_open, applyEvent, h, hc]

theorem fenster_bridge_loop_nochange {ev : FensterEvent} (alloc : Option Nat)
    (fb : fenster_bridge)
    (hw : ev.phys_width = fb.prev_width) (hh : ev.phys_height = fb.prev_height) :
    fenster_bridge_loop ev alloc fb =
      ({ fb with f := applyEvent ev fb.f }, ev.result, []) := by
  simp [fenster_bridge_loop, applyEvent, hw, hh]

theorem fenster_bridge_loop_realloc {ev : FensterEvent} (a : Nat)
    (fb : fenster_bridge)
    (hc : ev.phys_width ≠ fb.prev_width ∨ ev.phys_height ≠ fb.prev_height) :
    fenster_bridge_loop ev (some a) fb =
      ({ fb with
          f := { applyEvent ev fb.f with buf := a },
          buf := a,
          bufData := zeroPixels ev.phys_width ev.phys_height,
          resized := 1,
          prev_width := ev.phys_width,
          prev_height := ev.phys_height,
          prev_scale := ev.scale }, ev.result, [fb.buf]) := by
  simp [fenster_bridge_loop, applyEvent, hc]

theorem fenster_bridge_loop_allocfail {ev : FensterEvent}
    (fb : fenster_bridge)
    (hc : ev.phys_width ≠ fb.prev_width ∨ ev.phys_height ≠ fb.prev_height) :
    fenster_bridge_loop ev none fb =
      ({ fb with f := applyEvent ev fb.f }, ev.result, []) := by
  simp [fenster_bridge_loop, applyEvent, hc]

/-! ## Arithmetic helpers -/

theorem size_t_toNat {n : Int} (h0 : 0 ≤ n) (h1 : n < 2 ^ 31) :
    size_t n = n.toNat := by
  unfold size_t
  rw [Int.emod_eq_of_lt h0 (by omega)]

theorem callocCount_eq {w h : Int} (hw0 : 0 ≤ w) (hw1 : w < 2 ^ 31)
    (hh0 : 0 ≤ h) (hh1 : h < 2 ^ 31) :
    (callocCount w h : Int) = w * h := by
  unfold callocCount
  rw [size_t_toNat hw0 hw1, size_t_toNat hh0 hh1]
  have hlt : w.toNat * h.toNat < 2 ^ 64 := by
    have h1 : w.toNat < 2 ^ 31 := by omega
    have h2 : h.toNat < 2 ^ 31 := by omega
    calc w.toNat * h.toNat < 2 ^ 31 * 2 ^ 31 :=
          Nat.mul_lt_mul_of_lt_of_lt h1 h2
      _ < 2 ^ 64 := by norm_num
  rw [Nat.mod_eq_of_lt hlt]
  push_cast [Int.toNat_of_nonneg hw0, Int.toNat_of_nonneg hh0]
  rfl

theorem zeroPixels_length (w h : Int) :
    (zeroPixels w h).length = callocCount w h * 4 := by
  simp [zeroPixels]

/-! ## Claims -/

/-- C1: for every reachable state of a bridge handle (after create, and
preserved by open, loop, and every accessor/mutator including set_scale),
the bridge's owned buffer pointer `fb->buf` and the embedded window-library
state's buffer pointer `fb->f.buf` are the same address. -/
theorem c1_single_buffer_pointer (fb : fenster_bridge) (h : Reachable fb) :
    fb.buf = fb.f.buf := by
  induction h with
  | create titleAddr w h bufAddr hw0 hw1 hh0 hh1 => rfl
  | open_step fb ev alloc hfb hev ih =>
      by_cases hr : ev.result = 0
      · by_cases hc : ev.phys_width ≠ fb.prev_width ∨ ev.phys_height ≠ fb.prev_height
        · cases alloc with
          | some a => rw [fenster_bridge_open_realloc a fb hr hc]
          | none =>
              rw [fenster_bridge_open_allocfail fb hr hc]
              simpa [applyEvent] using ih
        · push_neg at hc
          rw [fenster_bridge_open_nochange alloc fb hr hc.1 hc.2]
          simpa [applyEvent] using ih
      · rw [fenster_bridge_open_fail alloc fb hr]
        simpa [applyEvent] using ih
  | loop_step fb ev alloc hfb hev ih =>
      by_cases hc : ev.phys_width ≠ fb.prev_width ∨ ev.phys_height ≠ fb.prev_height
      · cases alloc with
        | some a => rw [fenster_bridge_loop_realloc a fb hc]
        | none =>
            rw [fenster_bridge_loop_allocfail fb hc]
            simpa [applyEvent] using ih
      · push_neg at hc
        rw [fenster_bridge_loop_nochange alloc fb hc.1 hc.2]
        simpa [applyEvent] using ih
  | set_scale_step fb s hfb ih => simpa [fenster_bridge_set_scale] using ih
  | get_resized_step fb hfb ih => simpa [fenster_bridge_get_resized] using ih
  | copy_buf_step fb src n hfb hn0 hn1 hsrc hcap ih =>
      simpa [fenster_bridge_copy_buf] using ih

/-- Witness for C1 at a concrete reachable state. -/
theorem c1_single_buffer_pointer_witness :
    (createState 9 4 3 5).buf = (createState 9 4 3 5).f.buf :=
  c1_single_buffer_pointer (createState 9 4 3 5)
    (Reachable.create 9 4 3 5 (by decide) (by decide) (by decide) (by decide))

theorem zeroPixels_length_int {w h : Int} (hw0 : 0 ≤ w) (hw1 : w < 2 ^ 31)
    (hh0 : 0 ≤ h) (hh1 : h < 2 ^ 31) :
    ((zeroPixels w h).length : Int) = w * h * 4 := by
  rw [zeroPixels_length]
  push_cast
  rw [callocCount_eq hw0 hw1 hh0 hh1]

/-- C2 counterexample: the buffer length does not always equal
`phys_width * phys_height * 4`.  After create of a 1×1 window followed by
`set_scale 2`, the state is reachable, the physical dimensions are 2×2, but
the buffer still holds 1×1×4 = 4 bytes. -/
theorem c2_phys_length_counterexample :
    Reachable (fenster_bridge_set_scale (createState 9 1 1 5) 2) ∧
    ¬ (((fenster_bridge_set_scale (createState 9 1 1 5) 2).bufData.length : Int) =
        (fenster_bridge_set_scale (createState 9 1 1 5) 2).f.phys_width *
        (fenster_bridge_set_scale (createState 9 1 1 5) 2).f.phys_height * 4) := by
  constructor
  · exact Reachable.set_scale_step _ 2
      (Reachable.create 9 1 1 5 (by decide) (by decide) (by decide) (by decide))
  · have hpw : (fenster_bridge_set_scale (createState 9 1 1 5) 2).f.phys_width = 2 := by
      norm_num [fenster_bridge_set_scale, createState, truncToInt]
    have hph : (fenster_bridge_set_scale (createState 9 1 1 5) 2).f.phys_height = 2 := by
      norm_num [fenster_bridge_set_scale, createState, truncToInt]
    have hlen : (fenster_bridge_set_scale (createState 9 1 1 5) 2).bufData.length = 4 := by
      decide
    rw [hpw, hph, hlen]
    norm_num

/-- C2 (amended): for every reachable state the allocated length of the
pixel buffer equals `prev_width * prev_height * 4` bytes — the *cached*
previous physical dimensions, which coincide with the window library's
physical dimensions only while no `set_scale` call and no failed
reallocation has made them diverge. -/
theorem c2_buffer_length_matches_cache (fb : fenster_bridge) (h : Reachable fb) :
    (fb.bufData.length : Int) = fb.prev_width * fb.prev_height * 4 := by
  induction h with
  | create titleAddr w h bufAddr hw0 hw1 hh0 hh1 =>
      exact zeroPixels_length_int hw0 hw1 hh0 hh1
  | open_step fb ev alloc hfb hev ih =>
      by_cases hr : ev.result = 0
      · by_cases hc : ev.phys_width ≠ fb.prev_width ∨ ev.phys_height ≠ fb.prev_height
        · cases alloc with
          | some a =>
              rw [fenster_bridge_open_realloc a fb hr hc]
              exact zeroPixels_length_int hev.1 hev.2.1 hev.2.2.1 hev.2.2.2
          | none =>
              rw [fenster_bridge_open_allocfail fb hr hc]
              exact ih
        · push_neg at hc
          rw [fenster_bridge_open_nochange alloc fb hr hc.1 hc.2]
          exact ih
      · rw [fenster_bridge_open_fail alloc fb hr]
        exact ih
  | loop_step fb ev alloc hfb hev ih =>
      by_cases hc : ev.phys_width ≠ fb.prev_width ∨ ev.phys_height ≠ fb.prev_height
      · cases alloc with
        | some a =>
            rw [fenster_bridge_loop_realloc a fb hc]
            exact zeroPixels_length_int hev.1 hev.2.1 hev.2.2.1 hev.2.2.2
        | none =>
            rw [fenster_bridge_loop_allocfail fb hc]
            exact ih
      · push_neg at hc
        rw [fenster_bridge_loop_nochange alloc fb hc.1 hc.2]
        exact ih
  | set_scale_step fb s hfb ih => exact ih
  | get_resized_step fb hfb ih => exact ih
  | copy_buf_step fb src n hfb hn0 hn1 hsrc hcap ih =>
      have h1 : (fenster_bridge_copy_buf fb src n).bufData.length =
          fb.bufData.length := by
        simp [fenster_bridge_copy_buf, size_t_toNat hn0 hn1]
        omega
      have h2 : (fenster_bridge_copy_buf fb src n).prev_width = fb.prev_width := rfl
      have h3 : (fenster_bridge_copy_buf fb src n).prev_height = fb.prev_height := rfl
      rw [h1, h2, h3]
      exact ih

/-- Witness for the amended C2 at a concrete reachable state. -/
theorem c2_buffer_length_matches_cache_witness :
    ((createState 9 2 3 7).bufData.length : Int) =
      (createState 9 2 3 7).prev_width * (createState 9 2 3 7).prev_height * 4 :=
  c2_buffer_length_matches_cache (createState 9 2 3 7)
    (Reachable.create 9 2 3 7 (by decide) (by decide) (by decide) (by decide))

/-- C3: if the underlying `fenster_open` returns a non-zero status, then
`fenster_bridge_open` returns that same status, performs no buffer
reallocation and frees nothing, and leaves the buffer pointer, the cached
previous width/height and the cached previous scale unchanged. -/
theorem c3_open_failure_atomic (fb : fenster_bridge) (ev : FensterEvent)
    (alloc : Option Nat) (h : ev.result ≠ 0) :
    (fenster_bridge_open ev alloc fb).2.1 = ev.result ∧
    (fenster_bridge_open ev alloc fb).1.buf = fb.buf ∧
    (fenster_bridge_open ev alloc fb).1.bufData = fb.bufData ∧
    (fenster_bridge_open ev alloc fb).2.2 = [] ∧
    (fenster_bridge_open ev alloc fb).1.prev_width = fb.prev_width ∧
    (fenster_bridge_open ev alloc fb).1.prev_height = fb.prev_height ∧
    (fenster_bridge_open ev alloc fb).1.prev_scale = fb.prev_scale := by
  rw [fenster_bridge_open_fail alloc fb h]
  exact ⟨rfl, rfl, rfl, rfl, rfl, rfl, rfl⟩

/-- Witness for C3: a failing open (status 5) at a concrete state reports
status 5 and keeps the buffer pointer. -/
theorem c3_open_failure_atomic_witness :
    (fenster_bridge_open evFail (some 11) fbC).2.1 = 5 ∧
    (fenster_bridge_open evFail (some 11) fbC).1.buf = fbC.buf :=
  ⟨(c3_open_failure_atomic fbC evFail (some 11) (by decide)).1,
   (c3_open_failure_atomic fbC evFail (some 11) (by decide)).2.1⟩

/-- C4: when the underlying open succeeds, `fenster_bridge_open` returns 0
whatever the allocation outcome; if the reported physical dimensions differ
from the cached previous dimensions then, on allocation success, the buffer
is reallocated at `phys_width * phys_height` pixels, the old buffer is
freed, both buffer pointers are rewired to the new allocation and the cached
dimensions are updated, while on allocation failure the old buffer, its
contents and the old cached dimensions are all kept. -/
theorem c4_open_success (fb : fenster_bridge) (ev : FensterEvent) (a : Nat)
    (hres : ev.result = 0) :
    (∀ alloc, (fenster_bridge_open ev alloc fb).2.1 = 0) ∧
    ((ev.phys_width ≠ fb.prev_width ∨ ev.phys_height ≠ fb.prev_height) →
      (fenster_bridge_open ev (some a) fb).1.buf = a ∧
      (fenster_bridge_open ev (some a) fb).1.f.buf = a ∧
      (fenster_bridge_open ev (some a) fb).1.bufData =
        zeroPixels ev.phys_width ev.phys_height ∧
      (fenster_bridge_open ev (some a) fb).2.2 = [fb.buf] ∧
      (fenster_bridge_open ev (some a) fb).1.prev_width = ev.phys_width ∧
      (fenster_bridge_open ev (some a) fb).1.prev_height = ev.phys_height) ∧
    ((ev.phys_width ≠ fb.prev_width ∨ ev.phys_height ≠ fb.prev_height) →
      (fenster_bridge_open ev none fb).1.buf = fb.buf ∧
      (fenster_bridge_open ev none fb).1.bufData = fb.bufData ∧
      (fenster_bridge_open ev none fb).2.2 = [] ∧
      (fenster_bridge_open ev none fb).1.prev_width = fb.prev_width ∧
      (fenster_bridge_open ev none fb).1.prev_height = fb.prev_height) := by
  refine ⟨?_, ?_, ?_⟩
  · intro alloc
    by_cases hc : ev.phys_width ≠ fb.prev_width ∨ ev.phys_height ≠ fb.prev_height
    · cases alloc with
      | some b => rw [fenster_bridge_open_realloc b fb hres hc]
      | none => rw [fenster_bridge_open_allocfail fb hres hc]
    · push_neg at hc
      rw [fenster_bridge_open_nochange alloc fb hres hc.1 hc.2]
  · intro hc
    rw [fenster_bridge_open_realloc a fb hres hc]
    exact ⟨rfl, rfl, rfl, rfl, rfl, rfl⟩
  · intro hc
    rw [fenster_bridge_open_allocfail fb hres hc]
    exact ⟨rfl, rfl, rfl, rfl, rfl⟩

/-- Witness for C4: a successful open at a concrete state whose reported
physical dimensions (8×6) differ from the cache (4×3): status 0, and with a
successful allocation at address 11 the buffer pointer moves to 11. -/
theorem c4_open_success_witness :
    (fenster_bridge_open evScaled (some 11) fbC).2.1 = 0 ∧
    (fenster_bridge_open evScaled (some 11) fbC).1.buf = 11 :=
  ⟨(c4_open_success fbC evScaled 11 (by decide)).1 (some 11),
   ((c4_open_success fbC evScaled 11 (by decide)).2.1 (by decide)).1⟩

/-- C5 counterexample: after `fenster_bridge_loop` detects a physical-size
change (reported 8×6 against cached 4×3) but the reallocation fails, the
cached dimensions and the cached scale are NOT updated, contradicting the
claim that after a detected change "the cached dimensions and cached scale
are updated".  Concretely the cached width stays 4 instead of becoming 8. -/
theorem c5_loop_cache_counterexample :
    (evScaled.phys_width ≠ fbC.prev_width ∨ evScaled.phys_height ≠ fbC.prev_height) ∧
    (fenster_bridge_loop evScaled none fbC).1.prev_width = 4 ∧
    evScaled.phys_width = 8 ∧
    (fenster_bridge_loop evScaled none fbC).1.prev_scale = fbC.prev_scale ∧
    fbC.prev_scale ≠ evScaled.scale := by
  refine ⟨by decide, ?_, by decide, ?_, by decide⟩
  · rw [fenster_bridge_loop_allocfail fbC (by decide)]
    rfl
  · rw [fenster_bridge_loop_allocfail fbC (by decide)]

/-- C5 (amended): after `fenster_bridge_loop` delegates to the pump routine,
if the physical dimensions differ from the cached previous dimensions a new
buffer sized to them is allocated; on allocation success the new buffer is
swapped in, the old buffer is freed, the window-state pointer is rewired,
the resize flag is set, and the cached dimensions and cached scale are
updated; on allocation failure the old buffer is retained and the cached
dimensions, cached scale and resize flag are left unchanged; loop returns
the pump routine's status in every case. -/
theorem c5_loop_resize (fb : fenster_bridge) (ev : FensterEvent) (a : Nat) :
    (∀ alloc, (fenster_bridge_loop ev alloc fb).2.1 = ev.result) ∧
    ((ev.phys_width ≠ fb.prev_width ∨ ev.phys_height ≠ fb.prev_height) →
      (fenster_bridge_loop ev (some a) fb).1.buf = a ∧
      (fenster_bridge_loop ev (some a) fb).1.f.buf = a ∧
      (fenster_bridge_loop ev (some a) fb).1.bufData =
        zeroPixels ev.phys_width ev.phys_height ∧
      (fenster_bridge_loop ev (some a) fb).2.2 = [fb.buf] ∧
      (fenster_bridge_loop ev (some a) fb).1.resized = 1 ∧
      (fenster_bridge_loop ev (some a) fb).1.prev_width = ev.phys_width ∧
      (fenster_bridge_loop ev (some a) fb).1.prev_height = ev.phys_height ∧
      (fenster_bridge_loop ev (some a) fb).1.prev_scale = ev.scale) ∧
    ((ev.phys_width ≠ fb.prev_width ∨ ev.phys_height ≠ fb.prev_height) →
      (fenster_bridge_loop ev none fb).1.buf = fb.buf ∧
      (fenster_bridge_loop ev none fb).1.bufData = fb.bufData ∧
      (fenster_bridge_loop ev none fb).2.2 = [] ∧
      (fenster_bridge_loop ev none fb).1.resized = fb.resized ∧
      (fenster_bridge_loop ev none fb).1.prev_width = fb.prev_width ∧
      (fenster_bridge_loop ev none fb).1.prev_height = fb.prev_height ∧
      (fenster_bridge_loop ev none fb).1.prev_scale = fb.prev_scale) := by
  refine ⟨?_, ?_, ?_⟩
  · intro alloc
    by_cases hc : ev.phys_width ≠ fb.prev_width ∨ ev.phys_height ≠ fb.prev_height
    · cases alloc with
      | some b => rw [fenster_bridge_loop_realloc b fb hc]
      | none => rw [fenster_bridge_loop_allocfail fb hc]
    · push_neg at hc
      rw [fenster_bridge_loop_nochange alloc fb hc.1 hc.2]
  · intro hc
    rw [fenster_bridge_loop_realloc a fb hc]
    exact ⟨rfl, rfl, rfl, rfl, rfl, rfl, rfl, rfl⟩
  · intro hc
    rw [fenster_bridge_loop_allocfail fb hc]
    exact ⟨rfl, rfl, rfl, rfl, rfl, rfl, rfl⟩

/-- Witness for the amended C5 at a concrete state: a pump reporting 8×6
against cached 4×3 with a successful allocation at address 13 sets the
resize flag and moves the buffer pointer to 13. -/
theorem c5_loop_resize_witness :
    (fenster_bridge_loop evScaled (some 13) fbC).1.resized = 1 ∧
    (fenster_bridge_loop evScaled (some 13) fbC).1.buf = 13 :=
  ⟨((c5_loop_resize fbC evScaled 13).2.1 (by decide)).2.2.2.2.1,
   ((c5_loop_resize fbC evScaled 13).2.1 (by decide)).1⟩

/-- C6: `fenster_bridge_get_resized` returns the resize flag (set exactly
when a physical resize was detected since the flag was last read), writes
the current physical width and height to its out-parameters, and clears the
flag: the state after the call differs only in the cleared flag, a call on a
clear flag returns `changed = 0`, consecutive calls report the same
dimensions with the second returning 0, and after a resize detected during
`fenster_bridge_loop` (successful reallocation) the first call returns 1 and
the immediately following call returns 0. -/
theorem c6_get_resized_read_and_reset (fb : fenster_bridge) (ev : FensterEvent)
    (a : Nat)
    (hc : ev.phys_width ≠ fb.prev_width ∨ ev.phys_height ≠ fb.prev_height) :
    (fenster_bridge_get_resized fb).1 = fb.resized ∧
    (fenster_bridge_get_resized fb).2.1 = fb.f.phys_width ∧
    (fenster_bridge_get_resized fb).2.2.1 = fb.f.phys_height ∧
    (fenster_bridge_get_resized fb).2.2.2 = { fb with resized := 0 } ∧
    (fb.resized = 0 → (fenster_bridge_get_resized fb).1 = 0) ∧
    (fenster_bridge_get_resized ((fenster_bridge_get_resized fb).2.2.2)).1 = 0 ∧
    (fenster_bridge_get_resized ((fenster_bridge_get_resized fb).2.2.2)).2.1 =
      (fenster_bridge_get_resized fb).2.1 ∧
    (fenster_bridge_get_resized ((fenster_bridge_get_resized fb).2.2.2)).2.2.1 =
      (fenster_bridge_get_resized fb).2.2.1 ∧
    (fenster_bridge_get_resized (fenster_bridge_loop ev (some a) fb).1).1 = 1 ∧
    (fenster_bridge_get_resized
      ((fenster_bridge_get_resized
        (fenster_bridge_loop ev (some a) fb).1).2.2.2)).1 = 0 := by
  refine ⟨rfl, rfl, rfl, rfl, fun h => h, rfl, rfl, rfl, ?_, rfl⟩
  rw [fenster_bridge_loop_realloc a fb hc]
  rfl

/-- Witness for C6: at a concrete post-loop state the first read returns 1
and the second returns 0. -/
theorem c6_get_resized_read_and_reset_witness :
    (fenster_bridge_get_resized (fenster_bridge_loop evScaled (some 13) fbC).1).1 = 1 ∧
    (fenster_bridge_get_resized
      ((fenster_bridge_get_resized
        (fenster_bridge_loop evScaled (some 13) fbC).1).2.2.2)).1 = 0 :=
  ⟨(c6_get_resized_read_and_reset fbC evScaled 13 (by decide)).2.2.2.2.2.2.2.2.1,
   (c6_get_resized_read_and_reset fbC evScaled 13 (by decide)).2.2.2.2.2.2.2.2.2⟩

/-- C7: `fenster_bridge_set_scale` stores the scale factor and recomputes
the physical width/height as the logical width/height times the scale
(with the C `(int)` truncation), and changes nothing else: not the buffer
pointers, not the buffer contents, not the logical size, not the resize
flag, and none of the cached previous dimensions or scale. -/
theorem c7_set_scale_frame (fb : fenster_bridge) (s : ℚ) :
    (fenster_bridge_set_scale fb s).f.scale = s ∧
    (fenster_bridge_set_scale fb s).f.phys_width = truncToInt (fb.f.width * s) ∧
    (fenster_bridge_set_scale fb s).f.phys_height = truncToInt (fb.f.height * s) ∧
    (fenster_bridge_set_scale fb s).buf = fb.buf ∧
    (fenster_bridge_set_scale fb s).f.buf = fb.f.buf ∧
    (fenster_bridge_set_scale fb s).bufData = fb.bufData ∧
    (fenster_bridge_set_scale fb s).f.width = fb.f.width ∧
    (fenster_bridge_set_scale fb s).f.height = fb.f.height ∧
    (fenster_bridge_set_scale fb s).f.title = fb.f.title ∧
    (fenster_bridge_set_scale fb s).f.keys = fb.f.keys ∧
    (fenster_bridge_set_scale fb s).f.mod = fb.f.mod ∧
    (fenster_bridge_set_scale fb s).title_copy = fb.title_copy ∧
    (fenster_bridge_set_scale fb s).resized = fb.resized ∧
    (fenster_bridge_set_scale fb s).prev_width = fb.prev_width ∧
    (fenster_bridge_set_scale fb s).prev_height = fb.prev_height ∧
    (fenster_bridge_set_scale fb s).prev_scale = fb.prev_scale :=
  ⟨rfl, rfl, rfl, rfl, rfl, rfl, rfl, rfl, rfl, rfl, rfl, rfl, rfl, rfl, rfl, rfl⟩

/-- C8: `fenster_bridge_create` returns NULL when the handle allocation
fails, and when the pixel-buffer allocation fails it frees the handle and
returns NULL; on success it returns a handle whose cached previous physical
width/height are the requested width/height, whose cached previous scale is
1.0, whose resize flag is cleared, and whose embedded window state holds the
requested logical width/height, the owned title copy and the buffer
pointer. -/
theorem c8_create_seeding (titleAddr : Nat) (w h : Int) (fbAddr bufAddr : Nat) :
    (fenster_bridge_create titleAddr w h none (some bufAddr)).1 = none ∧
    (fenster_bridge_create titleAddr w h none none).1 = none ∧
    fenster_bridge_create titleAddr w h (some fbAddr) none = (none, [fbAddr]) ∧
    fenster_bridge_create titleAddr w h (some fbAddr) (some bufAddr) =
      (some (createState titleAddr w h bufAddr), []) ∧
    (createState titleAddr w h bufAddr).prev_width = w ∧
    (createState titleAddr w h bufAddr).prev_height = h ∧
    (createState titleAddr w h bufAddr).prev_scale = 1 ∧
    (createState titleAddr w h bufAddr).resized = 0 ∧
    (createState titleAddr w h bufAddr).f.width = w ∧
    (createState titleAddr w h bufAddr).f.height = h ∧
    (createState titleAddr w h bufAddr).f.title = titleAddr ∧
    (createState titleAddr w h bufAddr).title_copy = titleAddr ∧
    (createState titleAddr w h bufAddr).f.buf = bufAddr ∧
    (createState titleAddr w h bufAddr).buf = bufAddr :=
  ⟨rfl, rfl, rfl, rfl, rfl, rfl, rfl, rfl, rfl, rfl, rfl, rfl, rfl, rfl⟩

/-- C9: for a source region of exactly `N` bytes with `0 ≤ N ≤` the current
buffer's byte size, `fenster_bridge_copy_buf` overwrites exactly the first
`N` bytes of the pixel buffer with the source bytes and leaves the remaining
bytes (and every other part of the state) unchanged; when `N` equals the
buffer's total byte size the buffer content afterwards matches the source
exactly. -/
theorem c9_copy_buf_overwrite (fb : fenster_bridge) (src : List Nat) (n : Int)
    (hn0 : 0 ≤ n) (hn1 : n < 2 ^ 31)
    (hsrc : src.length = n.toNat) (hcap : n.toNat ≤ fb.bufData.length) :
    (fenster_bridge_copy_buf fb src n).bufData =
      src ++ fb.bufData.drop n.toNat ∧
    (fenster_bridge_copy_buf fb src n).bufData.length = fb.bufData.length ∧
    (n.toNat = fb.bufData.length →
      (fenster_bridge_copy_buf fb src n).bufData = src) ∧
    (fenster_bridge_copy_buf fb src n).buf = fb.buf ∧
    (fenster_bridge_copy_buf fb src n).f = fb.f ∧
    (fenster_bridge_copy_buf fb src n).resized = fb.resized ∧
    (fenster_bridge_copy_buf fb src n).prev_width = fb.prev_width ∧
    (fenster_bridge_copy_buf fb src n).prev_height = fb.prev_height ∧
    (fenster_bridge_copy_buf fb src n).prev_scale = fb.prev_scale ∧
    (fenster_bridge_copy_buf fb src n).title_copy = fb.title_copy := by
  have hk : size_t n = n.toNat := size_t_toNat hn0 hn1
  have h1 : (fenster_bridge_copy_buf fb src n).bufData =
      src ++ fb.bufData.drop n.toNat := by
    simp only [fenster_bridge_copy_buf, hk, ← hsrc, List.take_length]
  refine ⟨h1, ?_, ?_, rfl, rfl, rfl, rfl, rfl, rfl, rfl⟩
  · rw [h1]
    simp only [List.length_append, List.length_drop]
    omega
  · intro he
    rw [h1, he, List.drop_length, List.append_nil]

/-- Witness for C9: copying 4 bytes `[1, 2, 3, 4]` into the 48-byte buffer
of a concrete state yields those bytes followed by the untouched tail. -/
theorem c9_copy_buf_overwrite_witness :
    (fenster_bridge_copy_buf fbC [1, 2, 3, 4] 4).bufData =
      [1, 2, 3, 4] ++ fbC.bufData.drop 4 :=
  (c9_copy_buf_overwrite fbC [1, 2, 3, 4] 4 (by decide) (by decide)
    (by decide) (by decide)).1

/-- C10 (implicit): every pixel buffer the bridge installs is
zero-initialized — immediately after a successful `fenster_bridge_create`,
and immediately after the resize reallocation performed by a successful
`fenster_bridge_open` or by `fenster_bridge_loop`, every byte (hence every
32-bit pixel) of the new buffer is 0. -/
theorem c10_buffers_zero_initialized (titleAddr : Nat) (w h : Int)
    (bufAddr : Nat) (fb : fenster_bridge) (ev : FensterEvent) (a b : Nat)
    (hres : ev.result = 0)
    (hc : ev.phys_width ≠ fb.prev_width ∨ ev.phys_height ≠ fb.prev_height) :
    (∀ x ∈ (createState titleAddr w h bufAddr).bufData, x = 0) ∧
    (∀ x ∈ (fenster_bridge_open ev (some a) fb).1.bufData, x = 0) ∧
    (∀ x ∈ (fenster_bridge_loop ev (some b) fb).1.bufData, x = 0) := by
  refine ⟨?_, ?_, ?_⟩
  · intro x hx
    simp only [createState, zeroPixels, List.mem_replicate] at hx
    exact hx.2
  · rw [fenster_bridge_open_realloc a fb hres hc]
    intro x hx
    simp only [zeroPixels, List.mem_replicate] at hx
    exact hx.2
  · rw [fenster_bridge_loop_realloc b fb hc]
    intro x hx
    simp only [zeroPixels, List.mem_replicate] at hx
    exact hx.2

/-- Witness for C10 at concrete inputs: the freshly created 4×3 buffer, and
the buffers installed by a resizing open and loop, are all zero. -/
theorem c10_buffers_zero_initialized_witness :
    (∀ x ∈ (createState 9 4 3 5).bufData, x = 0) ∧
    (∀ x ∈ (fenster_bridge_open evScaled (some 11) fbC).1.bufData, x = 0) :=
  ⟨(c10_buffers_zero_initialized 9 4 3 5 fbC evScaled 11 12 (by decide)
      (by decide)).1,
   (c10_buffers_zero_initialized 9 4 3 5 fbC evScaled 11 12 (by decide)
      (by decide)).2.1⟩
